import Mathlib

/-!
Verification development for the `api-handler` core (src/demo/api-handler.py).

The Python source is shallowly embedded: each handler becomes a Lean
function over explicit state.  Calls into external libraries are modelled
as follows:

* `sqlite3.cursor.execute` is modelled by a small SQL engine (`tokenize`,
  `parseSelect`, `execute`) covering the SELECT fragment the handlers emit:
  string literals with `''` escaping, `--` comments, `=`, `LIKE` with
  `%`/`_` wildcards, and `AND`/`OR` with SQL precedence (AND binds
  tighter).  A query that sqlite3 would reject raises an exception in
  Python; here it returns `Except.error`.
* `requests.get(url, verify=...)` is recorded as a `FetchCall` value.
* `subprocess.call(..., shell=True)` is recorded as a `ProcCall.shell`
  value holding the constructed command line.
* File writes record the path under which the bytes are stored.

All definitions follow the source text of api-handler.py; the database
contents are an explicit parameter of every handler that opens a
connection.
-/

deriving instance DecidableEq for Except

namespace ApiHandler

/-- A cell value in the modelled sqlite database. -/
inductive Value where
  | s : String → Value
  | i : Int → Value
  | null : Value
deriving DecidableEq, Repr

/-- A row: ordered association of column names to values. -/
abbrev Row := List (String × Value)

/-- A table is a list of rows. -/
abbrev Table := List Row

/-- A database: named tables. -/
abbrev DB := List (String × Table)

/-! ### Global configuration (module-level constants of api-handler.py) -/

def API_KEY : String := "sk-live-abc123xyz789secret"

def DATABASE_PATH : String := "/var/data/app.db"

def DEBUG_MODE : Bool := true

/-- The dictionary returned by `get_config()`. -/
structure Config where
  api_key : String
  database : String
  debug : Bool
  secret : String
deriving DecidableEq, Repr

/-- `get_config()`: returns the application configuration, including the
live API key and a hardcoded secret. -/
def get_config : Config :=
  { api_key := API_KEY
    database := DATABASE_PATH
    debug := DEBUG_MODE
    secret := "super-secret-value-456" }

/-- The dictionary built by `handle_error`. -/
structure ErrorResponse where
  error : String
  traceback : String
  config : Config
deriving DecidableEq, Repr

/-- `handle_error(error)`: builds the JSON error body.  The Python code
calls `traceback.format_exc()` for the current stack trace; that runtime
string is passed in as `tb`. -/
def handle_error (error : String) (tb : String) : ErrorResponse :=
  { error := error
    traceback := tb
    config := get_config }

/-! ### Outbound HTTP fetch -/

/-- One invocation of `requests.get`, with its TLS-verification flag. -/
structure FetchCall where
  url : String
  verify : Bool
deriving DecidableEq, Repr

/-- `fetch_remote_config(url)`: issues `requests.get(url, verify=False)`.
We model the outbound call it performs; the yaml parse of the response
body is outside the model. -/
def fetch_remote_config (url : String) : FetchCall :=
  { url := url, verify := false }

/-! ### External process invocation -/

/-- How an external process is started: through a shell command line, or
as a discrete argument array. -/
inductive ProcCall where
  | shell : String → ProcCall
  | argv : List String → ProcCall
deriving DecidableEq, Repr

/-- `run_system_command(command)`: `subprocess.call(command, shell=True)`. -/
def run_system_command (command : String) : ProcCall :=
  ProcCall.shell command

/-- `send_email(to_address, subject, body)`: builds a shell pipeline
string from its arguments and runs it with `subprocess.call(cmd,
shell=True)`. -/
def send_email (to_address : String) (subject : String) (body : String) : ProcCall :=
  ProcCall.shell ("echo \"" ++ body ++ "\" | mail -s \"" ++ subject ++ "\" " ++ to_address)

/-! ### File upload -/

/-- The dictionary returned by `upload_file`, with the path the content
was written to. -/
structure UploadResult where
  success : Bool
  path : String
deriving DecidableEq, Repr

/-- `upload_file(file_content, filename)`: writes the content to
`f"/uploads/{filename}"` and reports that path. -/
def upload_file (file_content : String) (filename : String) : UploadResult :=
  { success := true, path := "/uploads/" ++ filename }

/-- Split a character list into segments at `/`. -/
def pathSegsAux : List Char → List Char → List String
  | [], cur => [String.mk cur.reverse]
  | '/' :: rest, cur => String.mk cur.reverse :: pathSegsAux rest []
  | c :: rest, cur => pathSegsAux rest (c :: cur)

/-- Resolve a `/`-separated absolute path: drop empty and `.` segments
and let `..` pop the previous segment (as the OS does when the file is
actually opened). -/
def resolvePath (path : String) : String :=
  let segs := (pathSegsAux path.data []).filter (fun s => s ≠ "" && s ≠ ".")
  let resolved := segs.foldl
    (fun acc s => if s == ".." then acc.dropLast else acc ++ [s]) []
  match resolved with
  | [] => "/"
  | _ => resolved.foldl (fun acc s => acc ++ "/" ++ s) ""

/-- A resolved path stays inside the upload directory. -/
def insideUploads (p : String) : Bool :=
  p == "/uploads" || List.isPrefixOf "/uploads/".data p.data

/-! ### SQL engine (model of sqlite3 for the queries the handlers emit) -/

/-- SQL tokens. -/
inductive Tok where
  | ident : String → Tok
  | str : String → Tok
  | num : Int → Tok
  | star : Tok
  | comma : Tok
  | eq : Tok
  | semi : Tok
deriving DecidableEq, Repr

/-- Read a single-quoted SQL string literal after its opening quote.
`''` inside the literal denotes one quote character.  Returns the literal
and the rest of the input; `none` on an unterminated literal. -/
def lexStrLit : List Char → Option (List Char × List Char)
  | [] => none
  | '\'' :: '\'' :: rest =>
      match lexStrLit rest with
      | some (s, r) => some ('\'' :: s, r)
      | none => none
  | '\'' :: rest => some ([], rest)
  | c :: rest =>
      match lexStrLit rest with
      | some (s, r) => some (c :: s, r)
      | none => none

/-- Characters that may appear in an identifier or keyword. -/
def isIdentChar (c : Char) : Bool :=
  c.isAlpha || c.isDigit || c == '_'

/-- Tokenizer worker; `fuel` bounds the number of steps (one token or
comment per step). -/
def tokenizeAux : Nat → List Char → Except String (List Tok)
  | 0, _ => .error "tokenizer: out of fuel"
  | _, [] => .ok []
  | n + 1, c :: rest =>
      if c == ' ' || c == '\n' || c == '\t' || c == '\r' then
        tokenizeAux n rest
      else if c == '\'' then
        match lexStrLit rest with
        | some (s, r) => (tokenizeAux n r).map (fun ts => Tok.str (String.mk s) :: ts)
        | none => .error "unterminated string literal"
      else if c == '-' then
        match rest with
        | '-' :: r => tokenizeAux n (r.dropWhile (fun d => d ≠ '\n'))
        | _ => .error "syntax error near -"
      else if c.isDigit then
        let digits := (c :: rest).takeWhile Char.isDigit
        let r := (c :: rest).dropWhile Char.isDigit
        let value : Nat := digits.foldl (fun acc d => acc * 10 + (d.toNat - 48)) 0
        (tokenizeAux n r).map (fun ts => Tok.num (Int.ofNat value) :: ts)
      else if c.isAlpha || c == '_' then
        let name := (c :: rest).takeWhile isIdentChar
        let r := (c :: rest).dropWhile isIdentChar
        (tokenizeAux n r).map (fun ts => Tok.ident (String.mk name) :: ts)
      else if c == '*' then (tokenizeAux n rest).map (Tok.star :: ·)
      else if c == ',' then (tokenizeAux n rest).map (Tok.comma :: ·)
      else if c == '=' then (tokenizeAux n rest).map (Tok.eq :: ·)
      else if c == ';' then (tokenizeAux n rest).map (Tok.semi :: ·)
      else .error ("unexpected character " ++ String.mk [c])

/-- Tokenize a SQL text. -/
def tokenize (q : String) : Except String (List Tok) :=
  tokenizeAux (q.length + 1) q.data

/-- An operand of a comparison: a column reference or a literal. -/
inductive Operand where
  | col : String → Operand
  | lit : Value → Operand
deriving DecidableEq, Repr

/-- WHERE-clause expressions for the fragment used by the handlers. -/
inductive Expr where
  | cmpEq : Operand → Operand → Expr
  | cmpLike : Operand → Operand → Expr
  | and : Expr → Expr → Expr
  | or : Expr → Expr → Expr
deriving DecidableEq, Repr

/-- A parsed `SELECT` statement: projected columns (`none` for `*`),
table name, optional WHERE clause. -/
structure SelectStmt where
  cols : Option (List String)
  table : String
  whereExpr : Option Expr
deriving DecidableEq, Repr

/-- ASCII uppercase of a string (character by character). -/
def upperAscii (s : String) : String :=
  String.mk (s.data.map Char.toUpper)

/-- Is this identifier the given (case-insensitive) keyword? -/
def isKeyword (kw : String) (t : Tok) : Bool :=
  match t with
  | Tok.ident name => upperAscii name == kw
  | _ => false

/-- Identifiers that cannot be used as plain column names here. -/
def isReserved (name : String) : Bool :=
  let u := upperAscii name
  u == "SELECT" || u == "FROM" || u == "WHERE" || u == "AND" || u == "OR" || u == "LIKE"

/-- Parse one comparison operand. -/
def parseOperand : List Tok → Except String (Operand × List Tok)
  | Tok.str s :: rest => .ok (Operand.lit (Value.s s), rest)
  | Tok.num k :: rest => .ok (Operand.lit (Value.i k), rest)
  | Tok.ident name :: rest =>
      if isReserved name then .error ("syntax error near " ++ name)
      else .ok (Operand.col name, rest)
  | _ => .error "syntax error: expected operand"

/-- Parse one comparison: `operand (= | LIKE) operand`. -/
def parseCmp (ts : List Tok) : Except String (Expr × List Tok) := do
  let (a, r1) ← parseOperand ts
  match r1 with
  | Tok.eq :: r2 => do
      let (b, r3) ← parseOperand r2
      .ok (Expr.cmpEq a b, r3)
  | t :: r2 =>
      if isKeyword "LIKE" t then do
        let (b, r3) ← parseOperand r2
        .ok (Expr.cmpLike a b, r3)
      else .error "syntax error: expected comparison operator"
  | [] => .error "syntax error: expected comparison operator"

/-- Fold further `AND cmp` conjuncts onto `acc` (left-associative). -/
def parseAndRest : Nat → Expr → List Tok → Except String (Expr × List Tok)
  | 0, _, _ => .error "parser: out of fuel"
  | n + 1, acc, t :: rest =>
      if isKeyword "AND" t then do
        let (c, r) ← parseCmp rest
        parseAndRest n (Expr.and acc c) r
      else .ok (acc, t :: rest)
  | _, acc, [] => .ok (acc, [])

/-- Parse a conjunction `cmp (AND cmp)*`. -/
def parseAnd (ts : List Tok) : Except String (Expr × List Tok) := do
  let (c, r) ← parseCmp ts
  parseAndRest (r.length + 1) c r

/-- Fold further `OR conj` disjuncts onto `acc` (left-associative);
`AND` binds tighter than `OR`, as in SQL. -/
def parseOrRest : Nat → Expr → List Tok → Except String (Expr × List Tok)
  | 0, _, _ => .error "parser: out of fuel"
  | n + 1, acc, t :: rest =>
      if isKeyword "OR" t then do
        let (c, r) ← parseAnd rest
        parseOrRest n (Expr.or acc c) r
      else .ok (acc, t :: rest)
  | _, acc, [] => .ok (acc, [])

/-- Parse a WHERE expression `conj (OR conj)*`. -/
def parseExpr (ts : List Tok) : Except String (Expr × List Tok) := do
  let (c, r) ← parseAnd ts
  parseOrRest (r.length + 1) c r

/-- Parse a comma-separated list of column names. -/
def parseColNames : Nat → List Tok → Except String (List String × List Tok)
  | 0, _ => .error "parser: out of fuel"
  | n + 1, Tok.ident name :: Tok.comma :: rest =>
      if isReserved name then .error ("syntax error near " ++ name)
      else do
        let (more, r) ← parseColNames n rest
        .ok (name :: more, r)
  | _, Tok.ident name :: rest =>
      if isReserved name then .error ("syntax error near " ++ name)
      else .ok ([name], rest)
  | _, _ => .error "syntax error: expected column name"

/-- Parse the projected column list after `SELECT`. -/
def parseCols : List Tok → Except String (Option (List String) × List Tok)
  | Tok.star :: rest => .ok (none, rest)
  | ts => (parseColNames (ts.length + 1) ts).map (fun (cs, r) => (some cs, r))

/-- Parse a full `SELECT cols FROM table [WHERE expr] [;]` statement.
Anything left over afterwards is an error — `sqlite3.Cursor.execute`
accepts a single statement only. -/
def parseSelect (ts : List Tok) : Except String SelectStmt := do
  match ts with
  | t :: rest =>
      if isKeyword "SELECT" t then do
        let (cols, r1) ← parseCols rest
        match r1 with
        | t2 :: Tok.ident table :: r2 =>
            if isKeyword "FROM" t2 && !isReserved table then do
              let (w, r3) ←
                match r2 with
                | t3 :: r3 =>
                    if isKeyword "WHERE" t3 then do
                      let (e, r4) ← parseExpr r3
                      pure (some e, r4)
                    else pure (none, t3 :: r3)
                | [] => pure (none, ([] : List Tok))
              match r3 with
              | [] => .ok { cols := cols, table := table, whereExpr := w }
              | [Tok.semi] => .ok { cols := cols, table := table, whereExpr := w }
              | _ => .error "syntax error: trailing input after statement"
            else .error "syntax error: expected FROM"
        | _ => .error "syntax error: expected FROM"
      else .error "syntax error: expected SELECT"
  | [] => .error "syntax error: empty statement"

/-- SQL `LIKE` matching on character lists: `%` matches any run, `_` any
single character, other characters match ASCII-case-insensitively (the
sqlite default).  `fuel` bounds the recursion. -/
def likeMatchAux : Nat → List Char → List Char → Bool
  | 0, _, _ => false
  | _ + 1, [], [] => true
  | _ + 1, [], _ :: _ => false
  | n + 1, '%' :: ps, t =>
      likeMatchAux n ps t ||
        (match t with
         | [] => false
         | _ :: t2 => likeMatchAux n ('%' :: ps) t2)
  | n + 1, '_' :: ps, _ :: ts => likeMatchAux n ps ts
  | _ + 1, '_' :: _, [] => false
  | n + 1, p :: ps, t :: ts => p.toLower == t.toLower && likeMatchAux n ps ts
  | _ + 1, _ :: _, [] => false

/-- SQL `LIKE` on strings. -/
def likeMatch (pattern text : String) : Bool :=
  likeMatchAux ((pattern.length + text.length) * 2 + 2) pattern.data text.data

/-- SQL equality of two values; comparisons with NULL or across types
are not true (sqlite: `1 = '1'` is false). -/
def valueEq : Value → Value → Bool
  | Value.s a, Value.s b => a == b
  | Value.i a, Value.i b => a == b
  | _, _ => false

/-- SQL `LIKE` on values: both sides must be text. -/
def valueLike : Value → Value → Bool
  | Value.s t, Value.s p => likeMatch p t
  | _, _ => false

/-- Evaluate an operand against a row. -/
def evalOperand (row : Row) : Operand → Except String Value
  | Operand.lit v => .ok v
  | Operand.col name =>
      match row.lookup name with
      | some v => .ok v
      | none => .error ("no such column: " ++ name)

/-- Evaluate a WHERE expression against a row. -/
def evalExpr (row : Row) : Expr → Except String Bool
  | Expr.cmpEq a b => do
      let va ← evalOperand row a
      let vb ← evalOperand row b
      .ok (valueEq va vb)
  | Expr.cmpLike a b => do
      let va ← evalOperand row a
      let vb ← evalOperand row b
      .ok (valueLike va vb)
  | Expr.and a b => do
      let va ← evalExpr row a
      let vb ← evalExpr row b
      .ok (va && vb)
  | Expr.or a b => do
      let va ← evalExpr row a
      let vb ← evalExpr row b
      .ok (va || vb)

/-- Keep the rows satisfying the WHERE clause. -/
def filterRows (w : Option Expr) : Table → Except String Table
  | [] => .ok []
  | row :: rest => do
      let keep ←
        match w with
        | some e => evalExpr row e
        | none => pure true
      let tail ← filterRows w rest
      .ok (if keep then row :: tail else tail)

/-- Look up the named columns in a row, in order. -/
def projectNamed (row : Row) : List String → Except String (List Value)
  | [] => .ok []
  | name :: more =>
      match row.lookup name with
      | some v => do
          let rest ← projectNamed row more
          .ok (v :: rest)
      | none => .error ("no such column: " ++ name)

/-- Project one row onto the selected columns (`none` = `*`). -/
def projectRow (cols : Option (List String)) (row : Row) : Except String (List Value) :=
  match cols with
  | none => .ok (row.map Prod.snd)
  | some names => projectNamed row names

/-- Project every row. -/
def projectRows (cols : Option (List String)) : Table → Except String (List (List Value))
  | [] => .ok []
  | row :: rest => do
      let v ← projectRow cols row
      let tail ← projectRows cols rest
      .ok (v :: tail)

/-- Execute a SQL text against the database: tokenize, parse, filter,
project.  Mirrors `cursor.execute(query)` followed by a fetch. -/
def execute (db : DB) (query : String) : Except String (List (List Value)) := do
  let ts ← tokenize query
  let stmt ← parseSelect ts
  match db.lookup stmt.table with
  | none => .error ("no such table: " ++ stmt.table)
  | some rows => do
      let kept ← filterRows stmt.whereExpr rows
      projectRows stmt.cols kept

/-- The shape of a SQL text: its token list with every string literal
replaced by a placeholder.  Two texts with the same shape differ only in
bound-literal content, never in query structure. -/
def queryShape (q : String) : Except String (List Tok) :=
  (tokenize q).map (List.map (fun t =>
    match t with
    | Tok.str _ => Tok.str "?"
    | t => t))

/-! ### Database-backed handlers -/

/-- The query text built by `search_database` (an f-string interpolating
the caller-supplied term into the SQL). -/
def search_query (search_term : String) : String :=
  "SELECT * FROM records WHERE name LIKE '%" ++ search_term ++ "%'"

/-- `search_database(search_term)`: executes the interpolated query and
returns `fetchall()`. -/
def search_database (db : DB) (search_term : String) : Except String (List (List Value)) :=
  execute db (search_query search_term)

/-- The result dict of `authenticate_user`: `user_id` is present exactly
when `authenticated` is true (Python omits the key otherwise). -/
structure AuthResult where
  authenticated : Bool
  user_id : Option Value
deriving DecidableEq, Repr

/-- The query text built by `authenticate_user`. -/
def auth_query (username password : String) : String :=
  "SELECT * FROM users WHERE username='" ++ username ++ "' AND password='" ++ password ++ "'"

/-- `authenticate_user(username, password)`: executes the interpolated
query; `fetchone()` is the head of the results.  A truthy row yields
`{"authenticated": True, "user_id": user[0]}`. -/
def authenticate_user (db : DB) (username password : String) : Except String AuthResult := do
  let rows ← execute db (auth_query username password)
  match rows with
  | user :: _ => .ok { authenticated := true, user_id := user.head? }
  | [] => .ok { authenticated := false, user_id := none }

/-- `get_user_profile(user_id)`: selects six columns (including password,
ssn and credit_card) for the given id and returns them all in the
profile dict; `None` when no row matches.  `user_id` is interpolated
into the query text unquoted, exactly as the f-string does. -/
def get_user_profile (db : DB) (user_id : String) : Except String (Option Row) := do
  let rows ← execute db
    ("SELECT id, username, email, password, ssn, credit_card FROM users WHERE id=" ++ user_id)
  match rows with
  | profile :: _ =>
      .ok (some
        [("id", profile.getD 0 Value.null),
         ("username", profile.getD 1 Value.null),
         ("email", profile.getD 2 Value.null),
         ("password", profile.getD 3 Value.null),
         ("ssn", profile.getD 4 Value.null),
         ("credit_card", profile.getD 5 Value.null)])
  | [] => .ok none

/-- Python `str()` of a fetched cell (cells are ints, strings or None). -/
def pyStrValue : Value → String
  | Value.s v => "'" ++ v ++ "'"
  | Value.i v => toString v
  | Value.null => "None"

/-- Python `str()` of a fetched row tuple. -/
def pyStrRow (row : List Value) : String :=
  match row with
  | [v] => "(" ++ pyStrValue v ++ ",)"
  | _ => "(" ++ String.intercalate ", " (row.map pyStrValue) ++ ")"

/-- Result of `export_data`: a csv string or the raw fetched rows. -/
inductive ExportResult where
  | csv : String → ExportResult
  | rows : List (List Value) → ExportResult
deriving DecidableEq, Repr

/-- `export_data(format_type, query)`: executes the caller-provided query
string directly and returns the data (joined into a string when the
format is `"csv"`). -/
def export_data (db : DB) (format_type : String) (query : String) :
    Except String ExportResult := do
  let data ← execute db query
  if format_type == "csv" then
    .ok (ExportResult.csv (String.intercalate "," (data.map pyStrRow)))
  else
    .ok (ExportResult.rows data)

/-- `validate_admin_access(token)`: returns `True` immediately for the
hardcoded token `"admin-token-12345"`; otherwise looks the token up with
an interpolated query and checks the role.  (When no row is found Python
returns the falsy `None`; truthiness is modelled as `false`.) -/
def validate_admin_access (db : DB) (token : String) : Except String Bool :=
  if token == "admin-token-12345" then .ok true
  else do
    let rows ← execute db ("SELECT role FROM tokens WHERE token='" ++ token ++ "'")
    match rows with
    | result :: _ => .ok (result.getD 0 Value.null == Value.s "admin")
    | [] => .ok false

/-! ### Webhook relay -/

/-- Result of `handle_webhook`: the returned value and the list of URLs
fetched with `requests.get` during the call. -/
structure WebhookOutcome where
  response : String
  requests : List String
deriving DecidableEq, Repr

/-- `handle_webhook(payload)`: reads `payload.get('callback')`; if that
value is truthy it issues `requests.get(callback_url)` and returns the
response text, otherwise it returns `"No callback"`.  The payload is a
string-valued dict (an absent key is `none`; the empty string is the
falsy string). `http_get` models the network. -/
def handle_webhook (http_get : String → String) (payload : List (String × String)) :
    WebhookOutcome :=
  match payload.lookup "callback" with
  | some callback_url =>
      if callback_url ≠ "" then
        { response := http_get callback_url, requests := [callback_url] }
      else
        { response := "No callback", requests := [] }
  | none => { response := "No callback", requests := [] }

/-! ### A concrete store for evaluating the handlers -/

/-- Sample `users` table: two provisioned accounts. -/
def usersT : Table :=
  [[("id", Value.i 1), ("username", Value.s "alice"),
    ("email", Value.s "alice@example.com"), ("password", Value.s "secret123"),
    ("ssn", Value.s "123-45-6789"), ("credit_card", Value.s "4111111111111111")],
   [("id", Value.i 2), ("username", Value.s "bob"),
    ("email", Value.s "bob@example.com"), ("password", Value.s "hunter2"),
    ("ssn", Value.s "987-65-4321"), ("credit_card", Value.s "5500000000000004")]]

/-- Sample `records` table, containing a record named `O'Brien`. -/
def recordsT : Table :=
  [[("id", Value.i 1), ("name", Value.s "O'Brien")],
   [("id", Value.i 2), ("name", Value.s "Smith")]]

/-- Sample `tokens` table: one standard and one admin token. -/
def tokensT : Table :=
  [[("token", Value.s "tok-std-1"), ("role", Value.s "standard")],
   [("token", Value.s "tok-adm-9"), ("role", Value.s "admin")]]

/-- The sample database. -/
def sampleDB : DB :=
  [("users", usersT), ("records", recordsT), ("tokens", tokensT)]

/-- The sample database with an empty token store. -/
def emptyTokensDB : DB :=
  [("users", usersT), ("records", recordsT), ("tokens", [])]

end ApiHandler

namespace ApiHandler

/-! ### Claim theorems -/

/-- C1: `validate_admin_access` special-cases the literal
`"admin-token-12345"`.  Against a database whose token store is empty —
so no token at all, in particular not this one, is present with role
admin — it still returns true, contradicting the claim that admin access
is granted only via the token store and that no constant token value is
special-cased. -/
theorem validate_admin_access_hardcoded_bypass :
    emptyTokensDB.lookup "tokens" = some [] ∧
    validate_admin_access emptyTokensDB "admin-token-12345" = Except.ok true := by
  decide

/-- C2: the profile projection leaks sensitive fields.  For the stored
user with id 1, `get_user_profile` returns a dict that contains the
`password`, `ssn` and `credit_card` keys with the stored secrets, not
only `{id, username, email}`. -/
theorem get_user_profile_exposes_sensitive_fields :
    get_user_profile sampleDB "1" =
      Except.ok (some
        [("id", Value.i 1), ("username", Value.s "alice"),
         ("email", Value.s "alice@example.com"), ("password", Value.s "secret123"),
         ("ssn", Value.s "123-45-6789"), ("credit_card", Value.s "4111111111111111")]) := by
  decide

/-- C3: the search term is interpolated into the query text, not bound.
(a) The executed query shape differs between the terms `Smith` and
`O'Brien`, so query structure is not independent of term contents;
(b) searching for `O'Brien` against a store containing a record of that
name raises a syntax error instead of returning the record; (c) the
term `x' OR 'a' LIKE 'a` returns every row of the table, including rows
whose name does not literally match the term. -/
theorem search_database_interpolates_term :
    queryShape (search_query "Smith") ≠ queryShape (search_query "O'Brien") ∧
    (recordsT.map (fun r => r.lookup "name")) =
      [some (Value.s "O'Brien"), some (Value.s "Smith")] ∧
    (search_database sampleDB "O'Brien").toOption = none ∧
    search_database sampleDB "x' OR 'a' LIKE 'a" =
      Except.ok [[Value.i 1, Value.s "O'Brien"], [Value.i 2, Value.s "Smith"]] := by
  decide

/-- C4: the error body leaks diagnostics and secrets.  `handle_error`
puts the formatted stack trace and the whole configuration — the live
API key and the hardcoded secret included — into the caller-visible
response, so the body is neither generic nor independent of the
configuration/secret set. -/
theorem handle_error_leaks_config :
    (handle_error "db down" "Traceback (most recent call last): boom").traceback =
      "Traceback (most recent call last): boom" ∧
    (handle_error "db down" "Traceback (most recent call last): boom").config = get_config ∧
    get_config.api_key = "sk-live-abc123xyz789secret" ∧
    get_config.secret = "super-secret-value-456" := by
  decide

/-- C5: authentication can succeed without a matching credential.  The
stored credential for `alice` is `secret123`; the supplied password
`' OR '1'='1` differs from it, yet `authenticate_user` returns
`{authenticated: true, user_id: 1}` because the password is interpolated
into the query text.  The benign paths (wrong password, unknown user)
do return `{authenticated: false}`. -/
theorem authenticate_user_injection_bypass :
    (usersT.getD 0 []).lookup "username" = some (Value.s "alice") ∧
    (usersT.getD 0 []).lookup "password" = some (Value.s "secret123") ∧
    ("' OR '1'='1" = "secret123") = False ∧
    authenticate_user sampleDB "alice" "' OR '1'='1" =
      Except.ok { authenticated := true, user_id := some (Value.i 1) } ∧
    authenticate_user sampleDB "alice" "wrong" =
      Except.ok { authenticated := false, user_id := none } ∧
    authenticate_user sampleDB "nobody" "x" =
      Except.ok { authenticated := false, user_id := none } := by
  decide

/-- C6: `export_data` executes the caller-supplied query string
directly.  A full query text that is no pre-approved report identifier
is accepted and run — returning the stored password column — instead of
failing with a ValidationError; no identifier check exists on any path. -/
theorem export_data_executes_caller_query :
    export_data sampleDB "json" "SELECT password FROM users" =
      Except.ok (ExportResult.rows [[Value.s "secret123"], [Value.s "hunter2"]]) := by
  decide

/-- C7: the outbound fetch disables TLS certificate validation: the
`requests.get` call issued by `fetch_remote_config` carries
`verify=False`, contradicting the claim that every outbound fetch is
invoked with certificate validation enabled. -/
theorem fetch_remote_config_disables_tls :
    (fetch_remote_config "https://example.com/config.yaml").verify = false := by
  decide

/-- C8: mail dispatch goes through a shell command line.  `send_email`
concatenates recipient, subject and body into a shell pipeline and runs
it with `shell=True` (never an argument array), and `run_system_command`
passes its caller-supplied input straight to the shell. -/
theorem send_email_builds_shell_command :
    send_email "ops@example.com" "report" "all good" =
      ProcCall.shell "echo \"all good\" | mail -s \"report\" ops@example.com" ∧
    run_system_command "cat /etc/hostname" = ProcCall.shell "cat /etc/hostname" := by
  decide

/-- C9: the stored upload path is caller-controlled.  The filename
`../../etc/passwd` is concatenated unsanitized under `/uploads/`, and
the resulting path resolves outside the upload directory. -/
theorem upload_file_path_escape :
    (upload_file "data" "../../etc/passwd").path = "/uploads/../../etc/passwd" ∧
    resolvePath ((upload_file "data" "../../etc/passwd").path) = "/etc/passwd" ∧
    insideUploads (resolvePath ((upload_file "data" "../../etc/passwd").path)) = false := by
  decide

/-- C10: `handle_webhook` returns `"No callback"` and issues no request
when the payload has no `callback` key or a falsy one; it issues exactly
one request — to the verbatim caller-supplied URL — iff the payload
carries a truthy `callback` value. -/
theorem handle_webhook_callback_iff (g : String → String)
    (payload : List (String × String)) :
    ((payload.lookup "callback" = none ∨ payload.lookup "callback" = some "") →
        handle_webhook g payload = { response := "No callback", requests := [] })
  ∧ (∀ url, payload.lookup "callback" = some url → url ≠ "" →
        handle_webhook g payload = { response := g url, requests := [url] })
  ∧ ((handle_webhook g payload).requests ≠ [] ↔
        ∃ url, payload.lookup "callback" = some url ∧ url ≠ "") := by
  unfold handle_webhook
  rcases h : payload.lookup "callback" with _ | url
  · simp
  · by_cases hu : url = "" <;> simp [hu]

/-- Witness for C10 on a concrete payload with a truthy callback. -/
theorem handle_webhook_callback_iff_witness :
    handle_webhook (fun _ => "pong") [("callback", "http://example.com/cb")] =
      { response := "pong", requests := ["http://example.com/cb"] } :=
  (handle_webhook_callback_iff (fun _ => "pong")
      [("callback", "http://example.com/cb")]).2.1
    "http://example.com/cb" (by decide) (by decide)

end ApiHandler
